import Mathlib

/-
  Verification of the S3 bucket listing service in src/app.py.

  The embedding models the Flask handlers `home` and `list_bucket_content`
  as pure Lean functions.  The boto3 call `s3.list_objects_v2` is modelled
  as an abstract store function returning either a response mapping or one
  of the exception outcomes the handler catches (NoCredentialsError,
  PartialCredentialsError, ClientError with a code, any other exception).
  Python string operations (`strip`, slicing, `split`) are embedded on
  character lists with Python semantics.
-/

namespace S3App

/-- Characters of Python `s.strip(c)`: remove every leading and every
trailing occurrence of `c`, keep the interior untouched. -/
def stripChars (c : Char) (l : List Char) : List Char :=
  ((l.dropWhile (· = c)).reverse.dropWhile (· = c)).reverse

/-- Python `path.strip('/')` from src/app.py line 20. -/
def normalizePath (s : String) : String :=
  ⟨stripChars '/' s.data⟩

/-- Python `s.split(c)` on character lists: always returns at least one
(possibly empty) segment; `"".split(c) == [""]`. -/
def splitOn (c : Char) : List Char → List (List Char)
  | [] => [[]]
  | x :: xs =>
    if x = c then [] :: splitOn c xs
    else
      match splitOn c xs with
      | [] => [[x]]
      | y :: ys => (x :: y) :: ys

/-- Python `obj['Key'][len(path):].split('/')[0]` from src/app.py line 33:
drop the first `len(path)` characters of the key, split the rest on the
path separator, take the first segment. -/
def entryOf (path key : String) : String :=
  ⟨(splitOn '/' (key.data.drop path.length)).headI⟩

/-- The loop of src/app.py lines 30-33: one listing entry per returned key,
in the store's order. -/
def deriveEntries (path : String) (keys : List String) : List String :=
  keys.map (entryOf path)

/-- The `list_objects_v2` response mapping: whether the key 'Error' is
present, and the optional 'Contents' list of object keys. -/
structure S3Response where
  hasError : Bool
  contents : Option (List String)
deriving DecidableEq

/-- Outcome of the `s3.list_objects_v2` call: a normal return, or one of
the exceptions caught in src/app.py lines 41-55 (NoCredentialsError,
PartialCredentialsError, ClientError carrying a code and a message,
any other exception carrying its message). -/
inductive StoreResult where
  | ok (resp : S3Response)
  | noCredentials
  | incompleteCredentials
  | clientError (code : String) (msg : String)
  | unexpected (msg : String)
deriving DecidableEq

/-- The store: bucket name and prefix in, one `StoreResult` out. -/
abbrev Store := String → String → StoreResult

/-- A JSON response body: plain text, `{"content": [...]}` or
`{"error": msg}`. -/
inductive Body where
  | text (s : String)
  | content (entries : List String)
  | error (msg : String)
deriving DecidableEq

/-- src/app.py line 11. -/
def BUCKET_NAME : String := "python-app-terraform"

/-- Lines 30-33: the entries derived from a response; `[]` when the
response has no 'Contents' key. -/
def responseEntries (path : String) (resp : S3Response) : List String :=
  match resp.contents with
  | some keys => deriveEntries path keys
  | none => []

/-- The handler `list_bucket_content` of src/app.py lines 19-55, with the
store call abstracted. -/
def list_bucket_content (store : Store) (rawPath : String) : Nat × Body :=
  let path := normalizePath rawPath
  match store BUCKET_NAME path with
  | .ok resp =>
    if resp.hasError then
      (404, .error "Bucket does not exist or there was an issue accessing it")
    else
      let content := responseEntries path resp
      if content = [] then
        (404, .error ("No content found for path '" ++ path ++ "'"))
      else
        (200, .content content)
  | .noCredentials => (403, .error "AWS credentials are missing")
  | .incompleteCredentials => (403, .error "Incomplete AWS credentials")
  | .clientError code msg =>
    if code = "NoSuchBucket" then
      (404, .error ("Bucket '" ++ BUCKET_NAME ++ "' does not exist"))
    else if code = "AccessDenied" then
      (403, .error "Access denied to the S3 bucket")
    else
      (400, .error ("Client error: " ++ msg))
  | .unexpected msg => (500, .error ("An unexpected error occurred: " ++ msg))

/-- The handler `home` of src/app.py lines 13-15 (Flask returns status 200
for a bare string). -/
def home : Nat × Body :=
  (200, .text "Welcome to the S3 Bucket Content Viewer!")

/-- The two routes of the app. -/
inductive Request where
  | root
  | listing (rawPath : String)

/-- Route dispatch: `GET /` to `home`, `GET /list-bucket-content/...` to
`list_bucket_content`. -/
def app (store : Store) : Request → Nat × Body
  | .root => home
  | .listing rawPath => list_bucket_content store rawPath

/-! ## Helper lemmas about the string operations -/

theorem splitOn_ne_nil (c : Char) (l : List Char) : splitOn c l ≠ [] := by
  cases l with
  | nil => simp [splitOn]
  | cons x xs =>
    simp only [splitOn]
    split
    · simp
    · split <;> simp

theorem headI_splitOn (c : Char) (l : List Char) :
    (splitOn c l).headI = l.takeWhile (· ≠ c) := by
  induction l with
  | nil => simp [splitOn]
  | cons x xs ih =>
    by_cases h : x = c
    · subst h
      simp [splitOn]
    · cases hs : splitOn c xs with
      | nil => exact absurd hs (splitOn_ne_nil c xs)
      | cons y ys =>
        rw [hs] at ih
        simp only [List.headI] at ih
        simp [splitOn, h, hs, List.takeWhile_cons, ih]

theorem entryOf_eq_takeWhile (p k : String) :
    entryOf p k = String.mk ((k.data.drop p.length).takeWhile (· ≠ '/')) := by
  rw [entryOf, headI_splitOn]

theorem takeWhile_eq_replicate (c : Char) (l : List Char) :
    l.takeWhile (· = c) = List.replicate (l.takeWhile (· = c)).length c :=
  List.eq_replicate_of_mem fun _ hb => by simpa using List.mem_takeWhile_imp hb

theorem dropWhile_decomp (c : Char) (l : List Char) :
    ∃ i, l = List.replicate i c ++ l.dropWhile (· = c) :=
  ⟨(l.takeWhile (· = c)).length, by
    conv_lhs => rw [← List.takeWhile_append_dropWhile (· = c) l]
    rw [← takeWhile_eq_replicate]⟩

theorem head?_dropWhile_ne (c : Char) (l : List Char) :
    (l.dropWhile (· = c)).head? ≠ some c := by
  induction l with
  | nil => simp
  | cons x xs ih =>
    by_cases h : x = c
    · simpa [List.dropWhile_cons, h] using ih
    · simp [List.dropWhile_cons, h]

/-! ## Claim theorems -/

/-- C1 counterexample: the claim's concrete example fails on the code. With
store keys ["docs/readme.md"] and normalized prefix "docs", line 33 drops
only `len("docs") = 4` characters, so the remainder is "/readme.md", whose
first segment on '/' is the empty string — not "readme.md". -/
theorem entry_example_docs_ne :
    deriveEntries "docs" ["docs/readme.md"] ≠ ["readme.md"] := by decide

/-- C1 (amended): each listing entry is derived from an object key by
dropping the leading `len(prefix)` characters, splitting the remainder on
'/', and taking the first segment — equivalently, the longest initial run
of non-separator characters of the remainder; for store keys
["docs/readme.md"] and normalized prefix "docs" the output sequence is
[""], because the remainder "/readme.md" starts with the separator. -/
theorem entry_derivation :
    (∀ p k : String,
        entryOf p k = String.mk ((k.data.drop p.length).takeWhile (· ≠ '/')))
    ∧ deriveEntries "docs" ["docs/readme.md"] = [String.mk []] :=
  ⟨fun p k => entryOf_eq_takeWhile p k, by decide⟩

/-- C2 counterexample: it is not true that every key strictly longer than
the prefix plus one separator yields a non-empty entry: the key
"docs/readme.md" with prefix "docs" yields the empty entry, because the
character right after the prefix is the separator itself. -/
theorem entry_nonempty_claim_false :
    ¬ (∀ p k : String, p.data.isPrefixOf k.data = true →
        k.length > p.length + 1 → entryOf p k ≠ "") := by
  intro h
  exact h "docs" "docs/readme.md" (by decide) (by decide) (by decide)

/-- C2 (amended): for every prefix p and store key k starting with p, if k
is strictly longer than p and the character of k right after the prefix is
not the separator, then the listing entry derived from k is non-empty. -/
theorem entry_nonempty_amended (p k : String)
    (_hpre : p.data.isPrefixOf k.data = true)
    (hlen : k.length > p.length)
    (hsep : k.data.getD p.length '/' ≠ '/') :
    entryOf p k ≠ "" := by
  rw [entryOf_eq_takeWhile]
  have hlen' : p.length < k.data.length := hlen
  obtain ⟨a, t, hl⟩ : ∃ a t, k.data.drop p.length = a :: t := by
    cases hd : k.data.drop p.length with
    | nil =>
      rw [List.drop_eq_nil_iff] at hd
      omega
    | cons a t => exact ⟨a, t, rfl⟩
  have h0 : (k.data.drop p.length)[0]? = some a := by rw [hl]; simp
  rw [List.getElem?_drop] at h0
  have hgetD : k.data.getD p.length '/' = a := by
    rw [List.getD_eq_getD_get?, List.get?_eq_getElem?]
    rw [Nat.add_zero] at h0
    rw [h0]
    rfl
  have ha : a ≠ '/' := hgetD ▸ hsep
  rw [hl]
  intro hcontra
  have hdata : (a :: t).takeWhile (· ≠ '/') = [] := congrArg String.data hcontra
  rw [List.takeWhile_cons] at hdata
  simp [ha] at hdata

/-- C2 witness: a concrete instance of the amended claim. -/
theorem entry_nonempty_amended_witness : entryOf "a" "ab" ≠ "" :=
  entry_nonempty_amended "a" "ab" (by decide) (by decide) (by decide)

/-- C3: when the store call returns normally and the response carries no
'Error' key, the handler returns 200 with `{"content": entries}` when the
derived entry sequence is non-empty, and 404 with an error message naming
the normalized path when it is empty. -/
theorem listing_success_mapping (store : Store) (raw : String) (resp : S3Response)
    (hcall : store BUCKET_NAME (normalizePath raw) = .ok resp)
    (herr : resp.hasError = false) :
    list_bucket_content store raw =
      if responseEntries (normalizePath raw) resp = [] then
        (404, Body.error ("No content found for path '" ++ normalizePath raw ++ "'"))
      else
        (200, Body.content (responseEntries (normalizePath raw) resp)) := by
  simp only [list_bucket_content]
  rw [hcall]
  simp [herr]

/-- C3 witness: a store holding one key "docs/readme.md", queried at the
root, yields 200 with the single entry "docs". -/
theorem listing_success_mapping_witness :
    list_bucket_content (fun _ _ => .ok ⟨false, some ["docs/readme.md"]⟩) "" =
      (200, Body.content ["docs"]) := by
  rw [listing_success_mapping (fun _ _ => .ok ⟨false, some ["docs/readme.md"]⟩) ""
    ⟨false, some ["docs/readme.md"]⟩ rfl rfl]
  decide

/-- C4: a ClientError from the store is mapped by its error code:
NoSuchBucket to 404, AccessDenied to 403, anything else to 400, each with a
JSON error body. -/
theorem client_error_mapping (store : Store) (raw code msg : String)
    (hcall : store BUCKET_NAME (normalizePath raw) = .clientError code msg) :
    list_bucket_content store raw =
      if code = "NoSuchBucket" then
        (404, Body.error ("Bucket '" ++ BUCKET_NAME ++ "' does not exist"))
      else if code = "AccessDenied" then
        (403, Body.error "Access denied to the S3 bucket")
      else
        (400, Body.error ("Client error: " ++ msg)) := by
  simp only [list_bucket_content]
  rw [hcall]

/-- C4 witness: a NoSuchBucket client error yields 404. -/
theorem client_error_mapping_witness :
    list_bucket_content (fun _ _ => .clientError "NoSuchBucket" "m") "x" =
      (404, Body.error ("Bucket '" ++ BUCKET_NAME ++ "' does not exist")) := by
  rw [client_error_mapping (fun _ _ => .clientError "NoSuchBucket" "m") "x"
    "NoSuchBucket" "m" rfl]
  simp

/-- C5: a NoCredentialsError yields 403 with the message "AWS credentials
are missing"; a PartialCredentialsError yields 403 with the distinct
message "Incomplete AWS credentials"; and the two messages differ. -/
theorem credentials_mapping :
    (∀ (store : Store) (raw : String),
        store BUCKET_NAME (normalizePath raw) = .noCredentials →
        list_bucket_content store raw = (403, Body.error "AWS credentials are missing"))
    ∧ (∀ (store : Store) (raw : String),
        store BUCKET_NAME (normalizePath raw) = .incompleteCredentials →
        list_bucket_content store raw = (403, Body.error "Incomplete AWS credentials"))
    ∧ ("AWS credentials are missing" : String) ≠ "Incomplete AWS credentials" := by
  refine ⟨?_, ?_, by decide⟩
  · intro store raw h
    simp only [list_bucket_content]
    rw [h]
  · intro store raw h
    simp only [list_bucket_content]
    rw [h]

/-- C5 witness: missing credentials on a concrete request yield 403 with
the credentials-specific message. -/
theorem credentials_mapping_witness :
    list_bucket_content (fun _ _ => .noCredentials) "any/path" =
      (403, Body.error "AWS credentials are missing") :=
  credentials_mapping.1 (fun _ _ => .noCredentials) "any/path" rfl

/-- C6: any store failure not classified as a credentials or client error
yields 500 with a body containing the error detail as a suffix; and every
possible store outcome is translated to one of the statuses 200, 400, 403,
404, 500 with a body — nothing escapes the handler. -/
theorem unexpected_error_mapping :
    (∀ (store : Store) (raw msg : String),
        store BUCKET_NAME (normalizePath raw) = .unexpected msg →
        list_bucket_content store raw =
          (500, Body.error ("An unexpected error occurred: " ++ msg)))
    ∧ (∀ msg : String, msg.data <:+ ("An unexpected error occurred: " ++ msg).data)
    ∧ (∀ (store : Store) (raw : String),
        (list_bucket_content store raw).1 ∈ ([200, 400, 403, 404, 500] : List Nat)) := by
  refine ⟨?_, ?_, ?_⟩
  · intro store raw msg h
    simp only [list_bucket_content]
    rw [h]
  · intro msg
    show msg.data <:+ ("An unexpected error occurred: " : String).data ++ msg.data
    exact List.suffix_append _ _
  · intro store raw
    simp only [list_bucket_content]
    rcases store BUCKET_NAME (normalizePath raw) with resp | _ | _ | ⟨code, msg⟩ | msg
    · by_cases hE : resp.hasError = true
      · simp [hE]
      · by_cases hC : responseEntries (normalizePath raw) resp = []
        · simp [hE, hC]
        · simp [hE, hC]
    · simp
    · simp
    · by_cases h1 : code = "NoSuchBucket" <;> by_cases h2 : code = "AccessDenied" <;>
        simp [h1, h2]
    · simp

/-- C6 witness: a concrete unexpected failure yields 500 with its detail. -/
theorem unexpected_error_mapping_witness :
    list_bucket_content (fun _ _ => .unexpected "boom") "x" =
      (500, Body.error ("An unexpected error occurred: " ++ "boom")) :=
  unexpected_error_mapping.1 (fun _ _ => .unexpected "boom") "x" "boom" rfl

/-- C7: normalization (Python `strip('/')`) removes exactly the leading and
trailing separators and nothing else: every raw path decomposes as a run of
leading separators, then the normalized path verbatim, then a run of
trailing separators, and the normalized path neither starts nor ends with a
separator; in particular it maps "/a/b/" to "a/b" and "" to "". -/
theorem normalize_strips_exactly :
    (∀ p : String, ∃ i j,
        p.data = List.replicate i '/' ++ (normalizePath p).data ++ List.replicate j '/'
        ∧ (normalizePath p).data.head? ≠ some '/'
        ∧ (normalizePath p).data.getLast? ≠ some '/')
    ∧ normalizePath "/a/b/" = "a/b"
    ∧ normalizePath "" = "" := by
  refine ⟨?_, by decide, rfl⟩
  intro p
  obtain ⟨i, hi⟩ := dropWhile_decomp '/' p.data
  obtain ⟨j, hj⟩ := dropWhile_decomp '/' (p.data.dropWhile (· = '/')).reverse
  have hres : (normalizePath p).data
      = ((p.data.dropWhile (· = '/')).reverse.dropWhile (· = '/')).reverse := rfl
  have hl1 : p.data.dropWhile (· = '/')
      = (normalizePath p).data ++ List.replicate j '/' := by
    have h2 := congrArg List.reverse hj
    rw [List.reverse_reverse, List.reverse_append, List.reverse_replicate] at h2
    rw [hres]
    exact h2
  refine ⟨i, j, ?_, ?_, ?_⟩
  · rw [List.append_assoc, ← hl1]
    exact hi
  · rcases hcase : (normalizePath p).data with _ | ⟨a, t⟩
    · simp
    · have hh : (p.data.dropWhile (· = '/')).head? = some a := by
        rw [hl1, hcase]
        rfl
      have hne := head?_dropWhile_ne '/' p.data
      rw [hh] at hne
      simpa using hne
  · rw [hres, List.getLast?_reverse]
    exact head?_dropWhile_ne '/' (p.data.dropWhile (· = '/')).reverse

/-- C8 counterexample: the claim's concrete example fails on the code. With
store keys ["a/b.txt", "a/c.txt", "d.txt"] and prefix "", the key "d.txt"
contains no separator, so its first segment is the whole key "d.txt" — the
output is not ["a", "a", "d"]. -/
theorem resolver_example_flat_ne :
    deriveEntries "" ["a/b.txt", "a/c.txt", "d.txt"] ≠ ["a", "a", "d"] := by decide

/-- C8 (amended): the resolver preserves duplicates and the store's key
order — the output has one entry per key, at the same index (no
deduplication, no reordering); with store keys
["a/b.txt", "a/c.txt", "d.txt"] and prefix "" the output is exactly
["a", "a", "d.txt"]. -/
theorem resolver_order_preserved :
    (∀ (p : String) (keys : List String), (deriveEntries p keys).length = keys.length)
    ∧ (∀ (p : String) (keys : List String) (i : Nat),
        (deriveEntries p keys)[i]? = keys[i]?.map (entryOf p))
    ∧ deriveEntries "" ["a/b.txt", "a/c.txt", "d.txt"] = ["a", "a", "d.txt"] := by
  refine ⟨?_, ?_, by decide⟩
  · intro p keys
    simp [deriveEntries]
  · intro p keys i
    simp [deriveEntries]

/-- C9: the root route always returns 200 with the static welcome text,
whatever the store does — the handler takes no input from the store. -/
theorem root_route_static (store : Store) :
    app store .root = (200, Body.text "Welcome to the S3 Bucket Content Viewer!") := rfl

/-- C10: when the store call returns normally and the response mapping
contains the key 'Error', the handler returns 404 with the fixed message
"Bucket does not exist or there was an issue accessing it", whatever the
'Contents' of the response — no listing entries are derived. -/
theorem error_key_branch (store : Store) (raw : String) (resp : S3Response)
    (hcall : store BUCKET_NAME (normalizePath raw) = .ok resp)
    (herr : resp.hasError = true) :
    list_bucket_content store raw =
      (404, Body.error "Bucket does not exist or there was an issue accessing it") := by
  simp only [list_bucket_content]
  rw [hcall]
  simp [herr]

/-- C10 witness: a response with the 'Error' key and a non-empty 'Contents'
list still yields the fixed 404 error body. -/
theorem error_key_branch_witness :
    list_bucket_content (fun _ _ => .ok ⟨true, some ["docs/readme.md"]⟩) "docs" =
      (404, Body.error "Bucket does not exist or there was an issue accessing it") :=
  error_key_branch (fun _ _ => .ok ⟨true, some ["docs/readme.md"]⟩) "docs"
    ⟨true, some ["docs/readme.md"]⟩ rfl rfl

end S3App
